import Mathlib

/-!
Verification of the annotation-conversion pipeline of
`ceo_foundry_ocr_medical_images`.

The pipeline has two scripts:
* `dataturks_to_PascalVOC_achbogga.py` turns line-delimited labeling-tool
  JSON into PASCAL VOC XML files, splitting items into train/validation
  directories.
* `create_tf_records_from_pascal_voc_annotations_achbogga.py` turns parsed
  VOC XML dictionaries into flat feature records for training.

We shallowly embed the arithmetic and the data-shaping logic: Python floats
become exact rationals, Python `int()` truncation becomes `pyInt`, parsed
XML objects become `VocObject` values, and the per-object walk of
`dict_to_tf_example` becomes the fold `dict_to_tf_example_objects` in the
`Except` monad (a raised Python exception is `Except.error`).
-/

/-- Python `int()` applied to a number: truncation toward zero. -/
def pyInt (q : ℚ) : ℤ := if 0 ≤ q then ⌊q⌋ else ⌈q⌉

/-- A point of the 2-point ("OCR") form: a JSON dict with keys `x` and `y`. -/
structure Pt2 where
  x : ℚ
  y : ℚ
  deriving DecidableEq, Repr

/-- The `points` field of one labeled object, in one of the two shapes
the code branches on (`len(bbx_data['points']) == 4` or else the 2-point
dict form). -/
inductive BbxPoints where
  | four (p0 p1 p2 p3 : ℚ × ℚ)
  | two (p0 p1 : Pt2)
  deriving DecidableEq, Repr

/-- An absolute-pixel bounding box as computed by `get_xml_for_bbx`
(lines 49-66 of `dataturks_to_PascalVOC_achbogga.py`). The 4-point branch
produces rationals (Python floats); the 2-point branch produces the
rational images of Python ints. -/
structure Box where
  xmin : ℚ
  ymin : ℚ
  xmax : ℚ
  ymax : ℚ
  deriving DecidableEq, Repr

/-- The box-geometry part of `get_xml_for_bbx`: lines 49-66.
Python `min(a,b,c,d)` / `max(a,b,c,d)` fold from the left. -/
def resolveBox (bbx_points : BbxPoints) (width height : ℕ) : Box :=
  match bbx_points with
  | BbxPoints.four p0 p1 p2 p3 =>
      { xmin := (width : ℚ) * min (min (min p0.1 p1.1) p2.1) p3.1
        ymin := (height : ℚ) * min (min (min p0.2 p1.2) p2.2) p3.2
        xmax := (width : ℚ) * max (max (max p0.1 p1.1) p2.1) p3.1
        ymax := (height : ℚ) * max (max (max p0.2 p1.2) p2.2) p3.2 }
  | BbxPoints.two p0 p1 =>
      { xmin := (pyInt (p0.x * width) : ℚ)
        ymin := (pyInt (p0.y * height) : ℚ)
        xmax := (pyInt (p1.x * width) : ℚ)
        ymax := (pyInt (p1.y * height) : ℚ) }

lemma min4_le_max4 (a b c d : ℚ) :
    min (min (min a b) c) d ≤ max (max (max a b) c) d := by
  calc min (min (min a b) c) d ≤ min (min a b) c := min_le_left _ _
    _ ≤ min a b := min_le_left _ _
    _ ≤ a := min_le_left _ _
    _ ≤ max a b := le_max_left _ _
    _ ≤ max (max a b) c := le_max_left _ _
    _ ≤ max (max (max a b) c) d := le_max_left _ _

/-- C1: for every 4-point input and image dimensions, `resolveBox` returns
the box whose corners are `width`/`height` times the min/max of the four
fractional coordinates, and this box satisfies `xmin ≤ xmax` and
`ymin ≤ ymax`. -/
theorem resolveBox_four_spec (w h : ℕ) (p0 p1 p2 p3 : ℚ × ℚ) :
    (resolveBox (BbxPoints.four p0 p1 p2 p3) w h).xmin
        = (w : ℚ) * min (min (min p0.1 p1.1) p2.1) p3.1 ∧
    (resolveBox (BbxPoints.four p0 p1 p2 p3) w h).ymin
        = (h : ℚ) * min (min (min p0.2 p1.2) p2.2) p3.2 ∧
    (resolveBox (BbxPoints.four p0 p1 p2 p3) w h).xmax
        = (w : ℚ) * max (max (max p0.1 p1.1) p2.1) p3.1 ∧
    (resolveBox (BbxPoints.four p0 p1 p2 p3) w h).ymax
        = (h : ℚ) * max (max (max p0.2 p1.2) p2.2) p3.2 ∧
    (resolveBox (BbxPoints.four p0 p1 p2 p3) w h).xmin
        ≤ (resolveBox (BbxPoints.four p0 p1 p2 p3) w h).xmax ∧
    (resolveBox (BbxPoints.four p0 p1 p2 p3) w h).ymin
        ≤ (resolveBox (BbxPoints.four p0 p1 p2 p3) w h).ymax := by
  refine ⟨rfl, rfl, rfl, rfl, ?_, ?_⟩ <;>
    exact mul_le_mul_of_nonneg_left (min4_le_max4 _ _ _ _) (by positivity)

/-- C7: a 100×200 image with one rectangle at fractional points
`(0.1,0.1),(0.5,0.1),(0.5,0.5),(0.1,0.5)` resolves to the absolute box
`xmin=10, ymin=20, xmax=50, ymax=100`. -/
theorem resolveBox_concrete_100x200 :
    resolveBox
      (BbxPoints.four (1/10, 1/10) (5/10, 1/10) (5/10, 5/10) (1/10, 5/10))
      100 200
      = { xmin := 10, ymin := 20, xmax := 50, ymax := 100 } := by
  simp only [resolveBox, Box.mk.injEq]
  norm_num

/-- C8: the 2-point branch scales each coordinate by width or height and
truncates with `int()`, with no min/max reordering; consequently the
concrete reversed input (point 0 bottom-right `(0.9,0.9)`, point 1 top-left
`(0.1,0.1)`) on a 100×200 image yields an inverted box with
`xmin > xmax` and `ymin > ymax`. -/
theorem resolveBox_two_spec :
    (∀ (p0 p1 : Pt2) (w h : ℕ),
      resolveBox (BbxPoints.two p0 p1) w h =
        { xmin := (pyInt (p0.x * w) : ℚ)
          ymin := (pyInt (p0.y * h) : ℚ)
          xmax := (pyInt (p1.x * w) : ℚ)
          ymax := (pyInt (p1.y * h) : ℚ) }) ∧
    (resolveBox (BbxPoints.two ⟨9/10, 9/10⟩ ⟨1/10, 1/10⟩) 100 200).xmax
        < (resolveBox (BbxPoints.two ⟨9/10, 9/10⟩ ⟨1/10, 1/10⟩) 100 200).xmin ∧
    (resolveBox (BbxPoints.two ⟨9/10, 9/10⟩ ⟨1/10, 1/10⟩) 100 200).ymax
        < (resolveBox (BbxPoints.two ⟨9/10, 9/10⟩ ⟨1/10, 1/10⟩) 100 200).ymin := by
  refine ⟨fun p0 p1 w h => rfl, ?_, ?_⟩ <;>
    · simp only [resolveBox, pyInt]
      norm_num

/-- The validation sample size `int(len(lines)*validation_split)` of `main`
(line 179 of `dataturks_to_PascalVOC_achbogga.py`). -/
def validationSize (n : ℕ) (f : ℚ) : ℕ := (pyInt ((n : ℚ) * f)).toNat

/-- The train/validation index split of `main` (lines 181-185): index `idx`
is routed to the validation directory iff `idx ∈ validation_indices`, and
to the training directory otherwise. First component: training indices;
second component: validation indices. The sampled set itself comes from the
external `random.sample`. -/
def datasetPartition (n : ℕ) (validation_indices : Finset ℕ) :
    Finset ℕ × Finset ℕ :=
  (Finset.range n \ validation_indices, validation_indices)

/-- C2: whenever the sampled index set satisfies the contract of
`random.sample(range(n), int(n*f))` — it is a subset of `[0,n)` of
cardinality `int(n*f)` — the two directories partition `[0,n)`: they are
disjoint, their union is `[0,n)`, and the validation side has exactly
`floor(n*f)` distinct elements drawn from `[0,n)`. -/
theorem datasetPartition_spec (n : ℕ) (f : ℚ) (v : Finset ℕ)
    (hf0 : 0 ≤ f) (_hf1 : f ≤ 1) (hsub : v ⊆ Finset.range n)
    (hcard : v.card = validationSize n f) :
    Disjoint (datasetPartition n v).1 (datasetPartition n v).2 ∧
    (datasetPartition n v).1 ∪ (datasetPartition n v).2 = Finset.range n ∧
    (datasetPartition n v).2.card = (⌊(n : ℚ) * f⌋).toNat ∧
    (datasetPartition n v).2 ⊆ Finset.range n := by
  refine ⟨Finset.disjoint_sdiff.symm, Finset.sdiff_union_of_subset hsub, ?_,
    hsub⟩
  have hnn : (0 : ℚ) ≤ (n : ℚ) * f :=
    mul_nonneg (by positivity) hf0
  simpa [validationSize, pyInt, if_pos hnn] using hcard

/-- Witness for C2 at `n = 5`, `f = 2/5`, sample `{0, 2}`. -/
theorem datasetPartition_spec_witness :
    Disjoint (datasetPartition 5 {0, 2}).1 (datasetPartition 5 {0, 2}).2 ∧
    (datasetPartition 5 {0, 2}).1 ∪ (datasetPartition 5 {0, 2}).2
        = Finset.range 5 ∧
    (datasetPartition 5 {0, 2}).2.card = (⌊(5 : ℚ) * (2/5)⌋).toNat ∧
    (datasetPartition 5 {0, 2}).2 ⊆ Finset.range 5 :=
  datasetPartition_spec 5 (2/5) {0, 2} (by norm_num) (by norm_num)
    (by decide)
    (by
      have h2 : ((5 : ℚ) * (2/5)) = ((2 : ℤ) : ℚ) := by norm_num
      simp [validationSize, pyInt, h2, Int.floor_intCast])

/-- A parsed XML text field that is either the literal sentinel string
"Unspecified" or the decimal representation of an integer — the only two
shapes this pipeline produces or consumes for `truncated` and `difficult`.
Python `int()` on the sentinel raises `ValueError`; on the numeral it
yields the integer. -/
inductive VField where
  | unspecified
  | intval (n : ℤ)
  deriving DecidableEq, Repr

/-- One `<object>` entry of a parsed VOC XML file, as the nested dict seen
by the object walk of `dict_to_tf_example`. Box corner strings parse with
`float()`; we keep them as the rationals they denote. -/
structure VocObject where
  name : String
  pose : String
  truncated : VField
  difficult : VField
  occluded : VField
  bndbox : Box
  deriving DecidableEq, Repr

/-- The `<object>` block emitted by `get_xml_for_bbx` (lines 68-81 of
`dataturks_to_PascalVOC_achbogga.py`): the label as name, the resolver's
box, and the literal string "Unspecified" for pose, truncated, difficult
and occluded. -/
def serializeObject (bbx_label : String) (box : Box) : VocObject :=
  { name := bbx_label
    pose := "Unspecified"
    truncated := VField.unspecified
    difficult := VField.unspecified
    occluded := VField.unspecified
    bndbox := box }

/-- `get_xml_for_bbx` in full: resolve the box, then emit the object
block. -/
def get_xml_for_bbx (bbx_label : String) (pts : BbxPoints)
    (width height : ℕ) : VocObject :=
  serializeObject bbx_label (resolveBox pts width height)

/-- A normalized one-image record: filename, true pixel dimensions, and the
ordered (label, absolute box) pairs. -/
structure AnnotRecord where
  filename : String
  width : ℕ
  height : ℕ
  objects : List (String × Box)
  deriving DecidableEq, Repr

/-- The sequence of `<object>` blocks the XML serializer writes for a
record: one block per (label, box) pair, in source order. -/
def serializeRecord (r : AnnotRecord) : List VocObject :=
  r.objects.map (fun ob => serializeObject ob.1 ob.2)

/-- Python `int()` on a parsed text field: `none` models the `ValueError`
raised on the "Unspecified" sentinel. -/
def intOfField : VField → Option ℤ
  | VField.unspecified => none
  | VField.intval n => some n

/-- The per-object values appended to the parallel lists of
`dict_to_tf_example` (lines 110-119 of
`create_tf_records_from_pascal_voc_annotations_achbogga.py`): fractional
box corners, class text, class id, difficult flag, truncated flag, pose. -/
structure ObjFeature where
  fxmin : ℚ
  fymin : ℚ
  fxmax : ℚ
  fymax : ℚ
  ftext : String
  fclass : ℕ
  fdifficult : ℤ
  ftruncated : ℤ
  fpose : String
  deriving DecidableEq, Repr

/-- The label map: an association from label name to integer class id;
`label_map_dict[name]` raises `KeyError` when the name is absent. -/
abbrev LabelMap := List (String × ℕ)

/-- The object walk of `dict_to_tf_example` (lines 102-119): objects whose
`difficult` field is the "Unspecified" sentinel are skipped; otherwise a
boolean is derived from the integer value and, when the
ignore-difficult flag is set, difficult objects are skipped too; surviving
objects append to the parallel lists, with a raised `KeyError` on an
unknown label and a raised `ValueError` when `int(obj['truncated'])` gets
the sentinel. A raised exception aborts the walk: `Except.error`. -/
def dict_to_tf_example_objects (label_map_dict : LabelMap)
    (ignore_difficult_instances : Bool) (width height : ℕ) :
    List VocObject → Except String (List ObjFeature)
  | [] => Except.ok []
  | obj :: rest =>
    match obj.difficult with
    | VField.unspecified =>
        dict_to_tf_example_objects label_map_dict ignore_difficult_instances
          width height rest
    | VField.intval d =>
        if ignore_difficult_instances && (d != 0) then
          dict_to_tf_example_objects label_map_dict
            ignore_difficult_instances width height rest
        else
          match List.lookup obj.name label_map_dict with
          | none => Except.error ("KeyError: " ++ obj.name)
          | some cid =>
            match intOfField obj.truncated with
            | none =>
                Except.error "ValueError: invalid literal for int()"
            | some t =>
              match dict_to_tf_example_objects label_map_dict
                  ignore_difficult_instances width height rest with
              | Except.error e => Except.error e
              | Except.ok tail =>
                  Except.ok
                    ({ fxmin := obj.bndbox.xmin / (width : ℚ)
                       fymin := obj.bndbox.ymin / (height : ℚ)
                       fxmax := obj.bndbox.xmax / (width : ℚ)
                       fymax := obj.bndbox.ymax / (height : ℚ)
                       ftext := obj.name
                       fclass := cid
                       fdifficult := if d = 0 then 0 else 1
                       ftruncated := t
                       fpose := obj.pose } :: tail)

/-- The nine per-object parallel lists of the emitted feature record
(keys `image/object/...` on lines 131-139). -/
structure FeatureLists where
  lxmin : List ℚ
  lymin : List ℚ
  lxmax : List ℚ
  lymax : List ℚ
  ltext : List String
  llabel : List ℕ
  ldifficult : List ℤ
  ltruncated : List ℤ
  lview : List String
  deriving DecidableEq, Repr

/-- Assemble the parallel lists from the walked objects, preserving
order. -/
def featureLists (fs : List ObjFeature) : FeatureLists :=
  { lxmin := fs.map (fun f => f.fxmin)
    lymin := fs.map (fun f => f.fymin)
    lxmax := fs.map (fun f => f.fxmax)
    lymax := fs.map (fun f => f.fymax)
    ltext := fs.map (fun f => f.ftext)
    llabel := fs.map (fun f => f.fclass)
    ldifficult := fs.map (fun f => f.fdifficult)
    ltruncated := fs.map (fun f => f.ftruncated)
    lview := fs.map (fun f => f.fpose) }

/-- `dict_to_tf_example` restricted to the object part of the emitted
example: the per-object parallel lists, or the raised exception. -/
def dict_to_tf_example (label_map_dict : LabelMap)
    (ignore_difficult_instances : Bool) (width height : ℕ)
    (objs : List VocObject) : Except String FeatureLists :=
  Except.map featureLists
    (dict_to_tf_example_objects label_map_dict ignore_difficult_instances
      width height objs)

/-- Whether the walk retains an object: dropped when `difficult` is the
sentinel, and also when the ignore-difficult flag is set and the derived
boolean is true. -/
def keepObject (ignore_difficult_instances : Bool) (o : VocObject) : Bool :=
  match o.difficult with
  | VField.unspecified => false
  | VField.intval d => !(ignore_difficult_instances && (d != 0))

/-- The sublist of objects the walk retains, in order. -/
def retainedObjects (ignore_difficult_instances : Bool)
    (objs : List VocObject) : List VocObject :=
  objs.filter (keepObject ignore_difficult_instances)

/-- Whether an object's `difficult` field is the "Unspecified" sentinel. -/
def isUnspecifiedDifficult (o : VocObject) : Bool :=
  match o.difficult with
  | VField.unspecified => true
  | VField.intval _ => false

/-- Whether `bool(int(obj['difficult']))` is `True`: the field is an
integer numeral with nonzero value. -/
def isDifficultTrue (o : VocObject) : Bool :=
  match o.difficult with
  | VField.unspecified => false
  | VField.intval d => d != 0

lemma dtoe_objects_ok_map_name (m : LabelMap) (ig : Bool) (w h : ℕ) :
    ∀ (objs : List VocObject) (feats : List ObjFeature),
      dict_to_tf_example_objects m ig w h objs = Except.ok feats →
      feats.map (fun f => f.ftext)
        = (retainedObjects ig objs).map (fun o => o.name) := by
  intro objs
  induction objs with
  | nil =>
      intro feats hok
      simp only [dict_to_tf_example_objects, Except.ok.injEq] at hok
      subst hok
      simp [retainedObjects]
  | cons obj rest ih =>
      intro feats hok
      cases hd : obj.difficult with
      | unspecified =>
          simp only [dict_to_tf_example_objects, hd] at hok
          have hkeep : keepObject ig obj = false := by
            simp [keepObject, hd]
          simpa [retainedObjects, List.filter_cons, hkeep]
            using ih feats hok
      | intval d =>
          simp only [dict_to_tf_example_objects, hd] at hok
          by_cases hig : (ig && (d != 0)) = true
          · rw [if_pos hig] at hok
            have hkeep : keepObject ig obj = false := by
              simp [keepObject, hd, hig]
            simpa [retainedObjects, List.filter_cons, hkeep]
              using ih feats hok
          · rw [if_neg hig] at hok
            have hfalse : (ig && (d != 0)) = false := by
              simp only [Bool.not_eq_true] at hig
              exact hig
            have hkeep : keepObject ig obj = true := by
              simp [keepObject, hd, hfalse]
            cases hlk : List.lookup obj.name m with
            | none => rw [hlk] at hok; cases hok
            | some cid =>
                rw [hlk] at hok
                cases ht : intOfField obj.truncated with
                | none => rw [ht] at hok; cases hok
                | some t =>
                    rw [ht] at hok
                    cases hrec : dict_to_tf_example_objects m ig w h rest with
                    | error e => rw [hrec] at hok; cases hok
                    | ok tail =>
                        rw [hrec] at hok
                        simp only [Except.ok.injEq] at hok
                        subst hok
                        simp only [retainedObjects, List.filter_cons, hkeep,
                          List.map_cons]
                        exact congrArg (List.cons obj.name) (ih tail hrec)

lemma dtoe_objects_ok_length (m : LabelMap) (ig : Bool) (w h : ℕ)
    (objs : List VocObject) (feats : List ObjFeature)
    (hok : dict_to_tf_example_objects m ig w h objs = Except.ok feats) :
    feats.length = (retainedObjects ig objs).length := by
  have hmap := dtoe_objects_ok_map_name m ig w h objs feats hok
  have := congrArg List.length hmap
  simpa using this

lemma retained_false_length (objs : List VocObject) :
    (retainedObjects false objs).length
      + (objs.filter (fun o => isUnspecifiedDifficult o)).length
      = objs.length := by
  induction objs with
  | nil => simp [retainedObjects]
  | cons obj rest ih =>
      simp only [retainedObjects] at ih ⊢
      cases hd : obj.difficult with
      | unspecified =>
          have h1 : keepObject false obj = false := by simp [keepObject, hd]
          have h2 : isUnspecifiedDifficult obj = true := by
            simp [isUnspecifiedDifficult, hd]
          simp only [List.filter_cons, h1, h2, if_true, if_false,
            Bool.false_eq_true, List.length_cons]
          omega
      | intval d =>
          have h1 : keepObject false obj = true := by simp [keepObject, hd]
          have h2 : isUnspecifiedDifficult obj = false := by
            simp [isUnspecifiedDifficult, hd]
          simp only [List.filter_cons, h1, h2, if_true, if_false,
            Bool.false_eq_true, List.length_cons]
          omega

/-- C4: whenever the object walk succeeds, every object whose `difficult`
field is the "Unspecified" sentinel is absent from the emitted parallel
lists (the retained sequence keeps exactly the objects `keepObject`
accepts, and the sentinel forces `keepObject` to reject); with the
ignore-difficult flag clear, the retained count is the input count minus
exactly the number of sentinel objects; with the flag set, objects whose
field parses to a true boolean are also rejected. -/
theorem difficult_filtering_spec (m : LabelMap) (ig : Bool) (w h : ℕ)
    (objs : List VocObject) (feats : List ObjFeature)
    (hok : dict_to_tf_example_objects m ig w h objs = Except.ok feats) :
    feats.map (fun f => f.ftext)
        = (retainedObjects ig objs).map (fun o => o.name) ∧
    (∀ o ∈ objs, isUnspecifiedDifficult o = true → keepObject ig o = false) ∧
    (ig = false →
      feats.length
          + (objs.filter (fun o => isUnspecifiedDifficult o)).length
        = objs.length) ∧
    (ig = true →
      ∀ o ∈ objs, isDifficultTrue o = true → keepObject ig o = false) := by
  refine ⟨dtoe_objects_ok_map_name m ig w h objs feats hok, ?_, ?_, ?_⟩
  · intro o _ hu
    cases hd : o.difficult with
    | unspecified => simp [keepObject, hd]
    | intval d => simp [isUnspecifiedDifficult, hd] at hu
  · intro hig
    subst hig
    have := dtoe_objects_ok_length m false w h objs feats hok
    rw [this]
    exact retained_false_length objs
  · intro hig o _ hdt
    subst hig
    cases hd : o.difficult with
    | unspecified => simp [keepObject, hd]
    | intval d =>
        simp only [isDifficultTrue, hd] at hdt
        simp [keepObject, hd, hdt]

/-- Concrete objects used by the witnesses: one sentinel-difficult object
(as this repository's serializer emits) and one fully specified object. -/
def objSentinel : VocObject :=
  { name := "u"
    pose := "Unspecified"
    truncated := VField.unspecified
    difficult := VField.unspecified
    occluded := VField.unspecified
    bndbox := { xmin := 0, ymin := 0, xmax := 1, ymax := 1 } }

def objCat : VocObject :=
  { name := "cat"
    pose := "Frontal"
    truncated := VField.intval 0
    difficult := VField.intval 0
    occluded := VField.intval 0
    bndbox := { xmin := 1, ymin := 2, xmax := 3, ymax := 4 } }

/-- Witness for C4 at a concrete two-object list. -/
theorem difficult_filtering_spec_witness :
    (let objs := [objSentinel, objCat]
     let feats := [{ fxmin := 1, fymin := 2, fxmax := 3, fymax := 4
                     ftext := "cat", fclass := 1, fdifficult := 0
                     ftruncated := 0, fpose := "Frontal" : ObjFeature }]
     feats.map (fun f => f.ftext)
        = (retainedObjects false objs).map (fun o => o.name) ∧
     (∀ o ∈ objs,
        isUnspecifiedDifficult o = true → keepObject false o = false) ∧
     (false = false →
       feats.length
           + (objs.filter (fun o => isUnspecifiedDifficult o)).length
         = objs.length) ∧
     (false = true →
       ∀ o ∈ objs, isDifficultTrue o = true → keepObject false o = false)) :=
  difficult_filtering_spec [("cat", 1)] false 1 1 [objSentinel, objCat] _
    (by
      show dict_to_tf_example_objects [("cat", 1)] false 1 1
          [objSentinel, objCat] = Except.ok _
      norm_num [dict_to_tf_example_objects, objSentinel, objCat, intOfField,
        List.lookup])

/-- C9: whenever `dict_to_tf_example` succeeds, the per-object parallel
lists of the emitted feature record — box corners, class text, class id,
difficult flag, truncated flag, pose — all have the same length, equal to
the number of objects retained by the difficulty-based filtering. -/
theorem parallel_lists_spec (m : LabelMap) (ig : Bool) (w h : ℕ)
    (objs : List VocObject) (F : FeatureLists)
    (hok : dict_to_tf_example m ig w h objs = Except.ok F) :
    F.lxmin.length = (retainedObjects ig objs).length ∧
    F.lymin.length = (retainedObjects ig objs).length ∧
    F.lxmax.length = (retainedObjects ig objs).length ∧
    F.lymax.length = (retainedObjects ig objs).length ∧
    F.ltext.length = (retainedObjects ig objs).length ∧
    F.llabel.length = (retainedObjects ig objs).length ∧
    F.ldifficult.length = (retainedObjects ig objs).length ∧
    F.ltruncated.length = (retainedObjects ig objs).length ∧
    F.lview.length = (retainedObjects ig objs).length := by
  cases hw : dict_to_tf_example_objects m ig w h objs with
  | error e =>
      rw [dict_to_tf_example, hw] at hok
      cases hok
  | ok feats =>
      rw [dict_to_tf_example, hw] at hok
      simp only [Except.map, Except.ok.injEq] at hok
      subst hok
      have hlen := dtoe_objects_ok_length m ig w h objs feats hw
      simp [featureLists, hlen]

/-- Witness for C9 at a concrete two-object list. -/
theorem parallel_lists_spec_witness :
    (let F := featureLists
        [{ fxmin := 1, fymin := 2, fxmax := 3, fymax := 4
           ftext := "cat", fclass := 1, fdifficult := 0
           ftruncated := 0, fpose := "Frontal" : ObjFeature }]
     F.lxmin.length = (retainedObjects false [objSentinel, objCat]).length ∧
     F.lymin.length = (retainedObjects false [objSentinel, objCat]).length ∧
     F.lxmax.length = (retainedObjects false [objSentinel, objCat]).length ∧
     F.lymax.length = (retainedObjects false [objSentinel, objCat]).length ∧
     F.ltext.length = (retainedObjects false [objSentinel, objCat]).length ∧
     F.llabel.length = (retainedObjects false [objSentinel, objCat]).length ∧
     F.ldifficult.length
        = (retainedObjects false [objSentinel, objCat]).length ∧
     F.ltruncated.length
        = (retainedObjects false [objSentinel, objCat]).length ∧
     F.lview.length = (retainedObjects false [objSentinel, objCat]).length) :=
  parallel_lists_spec [("cat", 1)] false 1 1 [objSentinel, objCat] _
    (by
      show dict_to_tf_example [("cat", 1)] false 1 1 [objSentinel, objCat]
          = Except.ok (featureLists _)
      norm_num [dict_to_tf_example, dict_to_tf_example_objects, Except.map,
        objSentinel, objCat, intOfField, List.lookup])

lemma dtoe_objects_err_of_missing (m : LabelMap) (ig : Bool) (w h : ℕ) :
    ∀ objs : List VocObject,
      (∃ o ∈ objs, keepObject ig o = true ∧ List.lookup o.name m = none) →
      ∃ e, dict_to_tf_example_objects m ig w h objs = Except.error e := by
  intro objs
  induction objs with
  | nil => rintro ⟨o, ho, -, -⟩; cases ho
  | cons obj rest ih =>
      rintro ⟨o, ho, hkeep, hlk⟩
      rcases List.mem_cons.mp ho with rfl | hmem
      · cases hd : o.difficult with
        | unspecified => simp [keepObject, hd] at hkeep
        | intval d =>
            have hfalse : (ig && (d != 0)) = false := by
              by_contra hne
              have : (ig && (d != 0)) = true :=
                eq_true_of_ne_false hne
              simp [keepObject, hd, this] at hkeep
            refine ⟨"KeyError: " ++ o.name, ?_⟩
            simp [dict_to_tf_example_objects, hd, hfalse, hlk]
      · obtain ⟨e, herr⟩ := ih ⟨o, hmem, hkeep, hlk⟩
        cases hd : obj.difficult with
        | unspecified =>
            exact ⟨e, by simp [dict_to_tf_example_objects, hd, herr]⟩
        | intval d =>
            cases hig : (ig && (d != 0)) with
            | true =>
                exact ⟨e, by simp [dict_to_tf_example_objects, hd, hig, herr]⟩
            | false =>
                cases hlk2 : List.lookup obj.name m with
                | none =>
                    refine ⟨"KeyError: " ++ obj.name, ?_⟩
                    simp [dict_to_tf_example_objects, hd, hig, hlk2]
                | some cid =>
                    cases ht : intOfField obj.truncated with
                    | none =>
                        refine ⟨"ValueError: invalid literal for int()", ?_⟩
                        simp [dict_to_tf_example_objects, hd, hig, hlk2, ht]
                    | some t =>
                        refine ⟨e, ?_⟩
                        simp [dict_to_tf_example_objects, hd, hig, hlk2, ht,
                          herr]

/-- C6: if some retained object's label name is absent from the label map,
the encoding raises at the `label_map_dict[obj['name']]` lookup: the result
is an error and no feature record is emitted (in particular no default id
is substituted). -/
theorem unknown_label_fails (m : LabelMap) (ig : Bool) (w h : ℕ)
    (objs : List VocObject)
    (hmiss : ∃ o ∈ objs,
      keepObject ig o = true ∧ List.lookup o.name m = none) :
    (∃ e, dict_to_tf_example m ig w h objs = Except.error e) ∧
    (∀ F, dict_to_tf_example m ig w h objs ≠ Except.ok F) := by
  obtain ⟨e, herr⟩ := dtoe_objects_err_of_missing m ig w h objs hmiss
  refine ⟨⟨e, ?_⟩, ?_⟩
  · simp [dict_to_tf_example, herr, Except.map]
  · intro F hF
    rw [dict_to_tf_example, herr] at hF
    cases hF

/-- Witness for C6: the label map knows only "cat", but a retained object
is labeled "dog". -/
theorem unknown_label_fails_witness :
    (∃ e, dict_to_tf_example [("cat", 1)] false 1 1
        [{ objCat with name := "dog" }] = Except.error e) ∧
    (∀ F, dict_to_tf_example [("cat", 1)] false 1 1
        [{ objCat with name := "dog" }] ≠ Except.ok F) :=
  unknown_label_fails [("cat", 1)] false 1 1 [{ objCat with name := "dog" }]
    ⟨{ objCat with name := "dog" }, List.mem_singleton_self _,
      by norm_num [keepObject, objCat], rfl⟩

lemma dtoe_objects_all_unspecified (m : LabelMap) (ig : Bool) (w h : ℕ) :
    ∀ objs : List VocObject,
      (∀ o ∈ objs, o.difficult = VField.unspecified) →
      dict_to_tf_example_objects m ig w h objs = Except.ok [] := by
  intro objs
  induction objs with
  | nil => intro _; rfl
  | cons obj rest ih =>
      intro hall
      have hd := hall obj (List.mem_cons_self _ _)
      simp only [dict_to_tf_example_objects, hd]
      exact ih (fun o ho => hall o (List.mem_cons_of_mem _ ho))

/-- C10: the serializer writes the literal "Unspecified" as the `difficult`
field of every `<object>` it emits, and the encoder drops every object
whose `difficult` field is "Unspecified"; hence for XML produced by this
repository's own converter, the encoding succeeds with all per-object
parallel lists empty — no object survives the full JSON → XML →
feature-record pipeline. -/
theorem pipeline_no_survivors (r : AnnotRecord) (m : LabelMap) (ig : Bool)
    (w h : ℕ) :
    (∀ v ∈ serializeRecord r, v.difficult = VField.unspecified) ∧
    dict_to_tf_example m ig w h (serializeRecord r)
      = Except.ok
          { lxmin := [], lymin := [], lxmax := [], lymax := [], ltext := []
            llabel := [], ldifficult := [], ltruncated := [], lview := [] } := by
  have hall : ∀ v ∈ serializeRecord r, v.difficult = VField.unspecified := by
    intro v hv
    obtain ⟨ob, -, rfl⟩ := List.mem_map.mp hv
    rfl
  refine ⟨hall, ?_⟩
  rw [dict_to_tf_example,
    dtoe_objects_all_unspecified m ig w h (serializeRecord r) hall]
  rfl

/-- The object labels recovered from an encoding result: the class-text
list on success, nothing on a raised exception. -/
def recoveredLabels (res : Except String (List ObjFeature)) : List String :=
  match res with
  | Except.ok fs => fs.map (fun f => f.ftext)
  | Except.error _ => []

/-- A concrete one-object record for the round-trip counterexample. -/
def roundtripRecord : AnnotRecord :=
  { filename := "im.jpg"
    width := 100
    height := 200
    objects := [("cat", { xmin := 10, ymin := 20, xmax := 50, ymax := 100 })] }

/-- C3 counterexample: serializing a one-object record labeled "cat" and
parsing it back through the object walk of `dict_to_tf_example` recovers
no labels at all, so the round trip does not preserve the object labels. -/
theorem voc_roundtrip_counterexample :
    roundtripRecord.objects.map Prod.fst = ["cat"] ∧
    recoveredLabels (dict_to_tf_example_objects [("cat", 1)] false 100 200
        (serializeRecord roundtripRecord)) = [] ∧
    recoveredLabels (dict_to_tf_example_objects [("cat", 1)] false 100 200
        (serializeRecord roundtripRecord))
      ≠ roundtripRecord.objects.map Prod.fst := by
  refine ⟨rfl, rfl, ?_⟩
  have h2 : recoveredLabels (dict_to_tf_example_objects [("cat", 1)] false
      100 200 (serializeRecord roundtripRecord)) = [] := rfl
  rw [h2]
  simp [roundtripRecord]

/-- C3 amended: the round trip preserves labels and boxes only for objects
whose `difficult` field differs from the "Unspecified" sentinel; since the
serializer always writes the sentinel, parsing its output back yields the
empty object list, and the recovered labels equal the record's labels
exactly when the record has no objects. -/
theorem voc_roundtrip_amended (m : LabelMap) (w h : ℕ) (r : AnnotRecord) :
    dict_to_tf_example_objects m false w h (serializeRecord r)
      = Except.ok [] ∧
    (recoveredLabels (dict_to_tf_example_objects m false w h
        (serializeRecord r)) = r.objects.map Prod.fst
      ↔ r.objects = []) := by
  have hall : ∀ v ∈ serializeRecord r, v.difficult = VField.unspecified := by
    intro v hv
    obtain ⟨ob, -, rfl⟩ := List.mem_map.mp hv
    rfl
  have hok := dtoe_objects_all_unspecified m false w h (serializeRecord r)
    hall
  refine ⟨hok, ?_⟩
  rw [hok]
  simp only [recoveredLabels, List.map_nil]
  constructor
  · intro hmap
    exact List.map_eq_nil_iff.mp hmap.symm
  · intro hnil
    simp [hnil]

/-- One raw labeled-object entry of a labeling-tool JSON line: its labels
(the code turns a single string into a one-element list, so we hold the
list), its optional `shape` tag, and its points. -/
structure RawBbx where
  labels : List String
  shape : Option String
  points : BbxPoints
  deriving DecidableEq, Repr

/-- One parsed JSON line. `annots` is the `annotation` array; a `none`
entry is a falsy element, which `if not bbx: continue` drops. -/
structure RawItem where
  annots : List (Option RawBbx)
  deriving DecidableEq, Repr

/-- The observable outcome of `convert_to_PascalVOC` on one item: an XML
file containing these object blocks was written and `True` returned, or
the item was skipped (empty `annotation`, info log, `False` returned), or
an exception was caught (exception log, `False` returned). -/
inductive ItemOutcome where
  | written (objs : List VocObject)
  | skipped
  | errored
  deriving DecidableEq, Repr

/-- The object blocks `convert_to_PascalVOC` emits (lines 130-143): falsy
entries are dropped, entries whose `shape` tag is present and not
"rectangle" are dropped, and one block is emitted per label of each
surviving entry, via `get_xml_for_bbx`. -/
def buildObjects (annots : List (Option RawBbx)) (w h : ℕ) :
    List VocObject :=
  ((annots.filterMap id).filter
      (fun b => match b.shape with
        | none => true
        | some s => s == "rectangle")).flatMap
    (fun b => b.labels.map (fun lab => get_xml_for_bbx lab b.points w h))

/-- `convert_to_PascalVOC` (lines 96-154): an empty `annotation` array is
detected first and returns the skip branch before any file access; then
the image is opened (`imgOk` models that external access, `w`/`h` its true
pixel size — a failure is caught by the blanket `except` and returns the
error branch); otherwise the XML file is written. -/
def convert_to_PascalVOC (item : RawItem) (imgOk : Bool) (w h : ℕ) :
    ItemOutcome :=
  if item.annots.length = 0 then ItemOutcome.skipped
  else if imgOk = false then ItemOutcome.errored
  else ItemOutcome.written (buildObjects item.annots w h)

/-- The boolean `convert_to_PascalVOC` returns: `True` exactly when an XML
file was written. -/
def statusOf : ItemOutcome → Bool
  | ItemOutcome.written _ => true
  | ItemOutcome.skipped => false
  | ItemOutcome.errored => false

/-- Whether the outcome wrote an output file. -/
def writesFile : ItemOutcome → Bool
  | ItemOutcome.written _ => true
  | ItemOutcome.skipped => false
  | ItemOutcome.errored => false

/-- The only counter `main` keeps (lines 180-191): `success` counts the
`True` returns. -/
def successCount (outs : List ItemOutcome) : ℕ :=
  (outs.filter (fun o => statusOf o)).length

/-- The final summary `main` logs: `success` items done and
`len(lines) - success` items "ignored due to errors or for being skipped
items" — a single combined count. -/
def runSummary (outs : List ItemOutcome) : ℕ × ℕ :=
  (successCount outs, outs.length - successCount outs)

/-- How many outcomes took the skip branch. -/
def countSkipped (outs : List ItemOutcome) : ℕ :=
  (outs.filter (fun o => o == ItemOutcome.skipped)).length

/-- How many outcomes took the error branch. -/
def countErrored (outs : List ItemOutcome) : ℕ :=
  (outs.filter (fun o => o == ItemOutcome.errored)).length

lemma successCount_add_skip_err (outs : List ItemOutcome) :
    successCount outs + (countSkipped outs + countErrored outs)
      = outs.length := by
  induction outs with
  | nil => rfl
  | cons o rest ih =>
      cases o <;>
        · simp only [successCount, countSkipped, countErrored,
            List.filter_cons, statusOf, List.length_cons, beq_iff_eq,
            reduceCtorEq, decide_True, decide_False, if_true, if_false,
            cond_true, cond_false] at ih ⊢
          omega

/-- C5 counterexample: a run whose single item was skipped (empty
`annotation` array) ends with exactly the same counter state as a run
whose single item errored — `main` has one combined "ignored" count, no
skip counter distinct from an error counter, and the returned status
booleans agree as well. -/
theorem skip_error_counters_counterexample :
    convert_to_PascalVOC { annots := [] } true 100 200
        = ItemOutcome.skipped ∧
    runSummary [ItemOutcome.skipped] = runSummary [ItemOutcome.errored] ∧
    statusOf ItemOutcome.skipped = statusOf ItemOutcome.errored := by
  refine ⟨rfl, ?_, rfl⟩
  rfl

/-- C5 amended: an item with an empty `annotation` array produces no
output file and takes the skip branch (info log, not the exception
handler), but it returns the same `False` an errored item returns, and the
run's final summary counts it in the single combined
`len(lines) - success` tally together with errored items; there is no skip
counter distinct from an error counter. -/
theorem empty_annots_skip (item : RawItem) (imgOk : Bool) (w h : ℕ)
    (hempty : item.annots = []) :
    convert_to_PascalVOC item imgOk w h = ItemOutcome.skipped ∧
    writesFile (convert_to_PascalVOC item imgOk w h) = false ∧
    statusOf (convert_to_PascalVOC item imgOk w h)
        = statusOf ItemOutcome.errored ∧
    (∀ outs : List ItemOutcome,
      (runSummary outs).2 = countSkipped outs + countErrored outs) := by
  have hskip : convert_to_PascalVOC item imgOk w h = ItemOutcome.skipped := by
    simp [convert_to_PascalVOC, hempty]
  refine ⟨hskip, by rw [hskip]; rfl, by rw [hskip]; rfl, ?_⟩
  intro outs
  have := successCount_add_skip_err outs
  simp only [runSummary]
  omega

/-- Witness for C5's amended theorem at a concrete empty item. -/
theorem empty_annots_skip_witness :
    convert_to_PascalVOC { annots := [] } true 100 200
        = ItemOutcome.skipped ∧
    writesFile (convert_to_PascalVOC { annots := [] } true 100 200)
        = false ∧
    statusOf (convert_to_PascalVOC { annots := [] } true 100 200)
        = statusOf ItemOutcome.errored ∧
    (∀ outs : List ItemOutcome,
      (runSummary outs).2 = countSkipped outs + countErrored outs) :=
  empty_annots_skip { annots := [] } true 100 200 rfl
